import Mathlib

/-!
Verification of the `init` tool (Go, `main.go`): a file materializer
(`writeFiles`) plus a line-oriented JSON-RPC stdio server
(`runMCPServer` / `handleRequest` / `sendResponse` / `sendError`).

The filesystem the Go code manipulates through `os.Stat` / `os.WriteFile`
is modelled as an explicit state: an association list of paths to entries,
together with two fault sets describing which paths the OS fails to stat
(with an error other than not-exist, e.g. a permission failure or a
dangling symlink) and which paths a write would fail on.
-/

namespace InitTool

/-- A filesystem entry as `os.Stat` classifies it: a regular file with its
content bytes, a directory, or anything else (symlink target, device, ...). -/
inductive Entry
  | file (content : List Nat)
  | dir
  | other
deriving DecidableEq, Repr

/-- `info.IsDir()` of `os.FileInfo`. -/
def Entry.isDir : Entry → Bool
  | .dir => true
  | _ => false

/-- Filesystem state: entries keyed by path (later writes shadow earlier
bindings), plus the set of paths on which `os.Stat` fails with an error other
than not-exist, and the set of paths on which `os.WriteFile` fails. -/
structure FS where
  entries : List (String × Entry)
  statFails : List String
  writeFails : List String
deriving DecidableEq, Repr

/-- Path lookup in the entry list (first binding wins). -/
def findEntry : List (String × Entry) → String → Option Entry
  | [], _ => none
  | (q, e) :: rest, p => if p = q then some e else findEntry rest p

/-- Outcome of `os.Stat`: success with the entry's info, a not-exist error,
or any other error. -/
inductive StatResult
  | ok (info : Entry)
  | errNotExist
  | errOther
deriving DecidableEq, Repr

/-- `err == nil` for the result of `os.Stat`. -/
def StatResult.isOk : StatResult → Bool
  | .ok _ => true
  | _ => false

/-- `os.Stat(p)` on the modelled filesystem. -/
def osStat (fs : FS) (p : String) : StatResult :=
  if p ∈ fs.statFails then .errOther
  else
    match findEntry fs.entries p with
    | some e => .ok e
    | none => .errNotExist

/-- `os.WriteFile(p, content, 0644)`: fails on the write-fault set, otherwise
creates (or truncates) the file at `p`. -/
def osWriteFile (fs : FS) (p : String) (content : List Nat) : Option FS :=
  if p ∈ fs.writeFails then none
  else some { fs with entries := (p, Entry.file content) :: fs.entries }

/-- `EmbeddedFile` pairs embedded content with its destination filename. -/
structure EmbeddedFile where
  content : List Nat
  destName : String
deriving DecidableEq, Repr

/-- `filepath.Join(directory, name)` for an absolute directory path with no
trailing separator, as the tool receives it. -/
def filepathJoin (dir name : String) : String := dir ++ "/" ++ name

/-- The compiled-in template set `embeddedFiles`: the two destination
filenames are fixed in the source; the content bytes come from the embedded
`files/FILE1` / `files/FILE2` and are parameters of the model. -/
def embeddedFiles (file1Content file2Content : List Nat) : List EmbeddedFile :=
  [ { content := file1Content, destName := "LICENSE" },
    { content := file2Content, destName := "CONTRIBUTING.md" } ]

/-- The errors `writeFiles` returns, by the `fmt.Errorf` site producing them:
the directory stat failed, the target is not a directory, a destination
already exists (conflict), or the write itself failed. -/
inductive WError
  | dirStatError (directory : String)
  | notADirectory (directory : String)
  | conflict (path : String)
  | writeError (destName : String)
deriving DecidableEq, Repr

/-- `Result` holds the outcome of an init operation. -/
structure Result where
  directory : String
  filesCreated : List String
deriving DecidableEq, Repr

/-- The per-entry loop of `writeFiles`: stat the destination path; if the stat
succeeds, fail with a conflict; otherwise attempt the write; on write failure
return a write error; else record the created path and continue. -/
def writeEntries (directory : String) :
    FS → List EmbeddedFile → List String → FS × Except WError (List String)
  | fs, [], created => (fs, .ok created)
  | fs, ef :: rest, created =>
    let destPath := filepathJoin directory ef.destName
    match osStat fs destPath with
    | .ok _ => (fs, .error (.conflict destPath))
    | _ =>
      match osWriteFile fs destPath ef.content with
      | none => (fs, .error (.writeError ef.destName))
      | some fs' => writeEntries directory fs' rest (created ++ [destPath])

/-- `writeFiles(directory)`: check the target exists and is a directory, then
write every template entry in order, returning the created paths. -/
def writeFiles (templates : List EmbeddedFile) (fs : FS) (directory : String) :
    FS × Except WError Result :=
  match osStat fs directory with
  | .errNotExist => (fs, .error (.dirStatError directory))
  | .errOther => (fs, .error (.dirStatError directory))
  | .ok info =>
    if info.isDir then
      match writeEntries directory fs templates [] with
      | (fs', .error e) => (fs', .error e)
      | (fs', .ok created) =>
        (fs', .ok { directory := directory, filesCreated := created })
    else (fs, .error (.notADirectory directory))

deriving instance DecidableEq for Except

/-! The JSON-RPC layer. -/

/-- A decoded JSON value as `encoding/json` produces for an `any` field:
null, boolean, number, string, array, or object. -/
inductive JSONValue
  | null
  | bool (b : Bool)
  | num (q : Rat)
  | str (s : String)
  | arr (xs : List JSONValue)
  | obj (fields : List (String × JSONValue))

/-- `ToolCallParams`: the decoded `params` of a `tools/call` request. -/
structure ToolCallParams where
  name : String
  arguments : List (String × JSONValue)

/-- The raw `params` bytes of a request, by how `json.Unmarshal` into
`ToolCallParams` fares on them: they either fail to decode (absent or
ill-typed) or decode to a `ToolCallParams` value. -/
inductive RawParams
  | malformed
  | valid (p : ToolCallParams)

/-- `JSONRPCRequest`. -/
structure JSONRPCRequest where
  jsonrpc : String
  id : JSONValue
  method : String
  params : RawParams

/-- `Error`: a JSON-RPC error object. -/
structure ErrObj where
  code : Int
  message : String
deriving DecidableEq, Repr

/-- `ServerInfo`. -/
structure ServerInfo where
  name : String
  version : String
deriving DecidableEq, Repr

/-- `Capabilities` (the Go `map[string]bool`, as a field list). -/
structure Capabilities where
  tools : List (String × Bool)
deriving DecidableEq, Repr

/-- `InitializeResult`. -/
structure InitializeResult where
  protocolVersion : String
  serverInfo : ServerInfo
  capabilities : Capabilities
deriving DecidableEq, Repr

/-- `Property` of the input schema. -/
structure SchemaProperty where
  propType : String
  description : String
deriving DecidableEq, Repr

/-- `InputSchema`. -/
structure InputSchema where
  schemaType : String
  properties : List (String × SchemaProperty)
  required : List String
deriving DecidableEq, Repr

/-- `Tool` descriptor. -/
structure Tool where
  name : String
  description : String
  inputSchema : InputSchema
deriving DecidableEq, Repr

/-- `ToolsListResult`. -/
structure ToolsListResult where
  tools : List Tool
deriving DecidableEq, Repr

/-- `ContentItem`: the Go code stores `text` as the JSON serialization of the
materialization `Result`; the model carries the serialized value itself. -/
structure ContentItem where
  itemType : String
  text : Result
deriving DecidableEq, Repr

/-- `ToolCallResult`. -/
structure ToolCallResult where
  content : List ContentItem
deriving DecidableEq, Repr

/-- The value marshalled into the `result` field of a success response: one of
the three handler result types. -/
inductive ResultPayload
  | initializeResult (r : InitializeResult)
  | toolsListResult (r : ToolsListResult)
  | toolCallResult (r : ToolCallResult)
deriving DecidableEq, Repr

/-- `JSONRPCResponse`: `result` and `error` are both optional (`omitempty`);
`sendResponse` populates only `result`, `sendError` only `error`. -/
structure JSONRPCResponse where
  jsonrpc : String
  id : JSONValue
  result : Option ResultPayload
  error : Option ErrObj

/-- `sendResponse(id, result)`. -/
def sendResponse (id : JSONValue) (result : ResultPayload) : JSONRPCResponse :=
  { jsonrpc := "2.0", id := id, result := some result, error := none }

/-- `sendError(id, code, message)`. -/
def sendError (id : JSONValue) (code : Int) (message : String) : JSONRPCResponse :=
  { jsonrpc := "2.0", id := id, error := some { code := code, message := message },
    result := none }

/-- `handleInitialize`. -/
def handleInitialize (req : JSONRPCRequest) : JSONRPCResponse :=
  sendResponse req.id (.initializeResult
    { protocolVersion := "2024-11-05",
      serverInfo := { name := "init", version := "1.0.0" },
      capabilities := { tools := [("list", true), ("call", true)] } })

/-- `handleToolsList`. -/
def handleToolsList (req : JSONRPCRequest) : JSONRPCResponse :=
  sendResponse req.id (.toolsListResult
    { tools := [
        { name := "init",
          description := "Write embedded template files to a target directory. Refuses to overwrite existing files.",
          inputSchema :=
            { schemaType := "object",
              properties := [("directory",
                { propType := "string",
                  description := "Absolute path to the directory where files will be created" })],
              required := ["directory"] } } ] })

/-- The message `writeFiles`' error formats to via `fmt.Errorf`; the wrapped
OS error text for stat/write failures is abstracted by its site. -/
def werrorMessage : WError → String
  | .dirStatError d => "checking directory: " ++ d
  | .notADirectory d => "not a directory: " ++ d
  | .conflict p => "file already exists, refusing to overwrite: " ++ p
  | .writeError n => "writing " ++ n ++ ": write failed"

/-- Lookup of `params.Arguments["directory"]` in the decoded arguments map. -/
def lookupArg : List (String × JSONValue) → String → Option JSONValue
  | [], _ => none
  | (k, v) :: rest, key => if key = k then some v else lookupArg rest key

/-- `handleToolsCall`: decode params, check the tool name, extract the
`directory` string argument, run `writeFiles`, and wrap the outcome. -/
def handleToolsCall (templates : List EmbeddedFile) (fs : FS)
    (req : JSONRPCRequest) : FS × JSONRPCResponse :=
  match req.params with
  | .malformed => (fs, sendError req.id (-32602) "Invalid params")
  | .valid params =>
    if params.name ≠ "init" then (fs, sendError req.id (-32602) "Unknown tool")
    else
      match lookupArg params.arguments "directory" with
      | some (.str directory) =>
        if directory = "" then
          (fs, sendError req.id (-32602) "Missing or invalid 'directory' parameter")
        else
          match writeFiles templates fs directory with
          | (fs', .error e) =>
            (fs', sendError req.id (-32603) ("Init failed: " ++ werrorMessage e))
          | (fs', .ok result) =>
            (fs', sendResponse req.id (.toolCallResult
              { content := [{ itemType := "text", text := result }] }))
      | _ => (fs, sendError req.id (-32602) "Missing or invalid 'directory' parameter")

/-- `handleRequest`: route by method name. -/
def handleRequest (templates : List EmbeddedFile) (fs : FS)
    (req : JSONRPCRequest) : FS × JSONRPCResponse :=
  match req.method with
  | "initialize" => (fs, handleInitialize req)
  | "tools/list" => (fs, handleToolsList req)
  | "tools/call" => handleToolsCall templates fs req
  | _ => (fs, sendError req.id (-32601) "Method not found")

/-- One input line of the transport loop, by how the loop classifies it:
empty, failing to parse as a `JSONRPCRequest`, or parsed. -/
inductive Line
  | empty
  | malformed
  | parsed (req : JSONRPCRequest)

/-- Whether the line is the empty string. -/
def Line.isEmpty : Line → Bool
  | .empty => true
  | _ => false

/-- One iteration of the transport loop body on a line: empty lines are
skipped, unparsable lines get a parse-error response with a null id, parsed
requests are dispatched. -/
def dispatchLine (templates : List EmbeddedFile) (fs : FS) (l : Line) :
    FS × Option JSONRPCResponse :=
  match l with
  | .empty => (fs, none)
  | .malformed => (fs, some (sendError .null (-32700) "Parse error"))
  | .parsed req =>
    let (fs', resp) := handleRequest templates fs req
    (fs', some resp)

/-- The sequential transport loop of `runMCPServer` over a finite input:
processes lines in order, threading the filesystem state, and collects the
emitted responses in emission order. -/
def processLines (templates : List EmbeddedFile) :
    FS → List Line → FS × List JSONRPCResponse
  | fs, [] => (fs, [])
  | fs, l :: rest =>
    let (fs', o) := dispatchLine templates fs l
    let (fs'', rs) := processLines templates fs' rest
    (fs'', match o with | none => rs | some r => r :: rs)

/-- The destination paths of a template list in a directory, in set order. -/
def destPaths (dir : String) (templates : List EmbeddedFile) : List String :=
  templates.map (fun ef => filepathJoin dir ef.destName)

/-! Basic facts about paths. -/

/-- Joining distinct filenames onto the same directory gives distinct paths. -/
theorem filepathJoin_ne_of_ne (dir : String) {a b : String} (h : a ≠ b) :
    filepathJoin dir a ≠ filepathJoin dir b := by
  intro heq
  apply h
  have hd := congrArg String.data heq
  simp only [filepathJoin, String.data_append, List.append_assoc] at hd
  have := List.append_cancel_left (List.append_cancel_left hd)
  exact String.ext this

/-- A joined destination path is never the directory itself. -/
theorem filepathJoin_ne_dir (dir name : String) : filepathJoin dir name ≠ dir := by
  intro heq
  have hl := congrArg String.length heq
  simp only [filepathJoin, String.length_append] at hl
  have : ("/" : String).length = 1 := rfl
  omega

example :
    (writeFiles (embeddedFiles [1] [2])
      { entries := [("/d", Entry.dir)], statFails := [], writeFails := [] } "/d").2 =
    .ok { directory := "/d", filesCreated := ["/d/LICENSE", "/d/CONTRIBUTING.md"] } := by
  decide

example :
    (writeFiles (embeddedFiles [1] [2])
      { entries := [("/d", Entry.dir), ("/d/LICENSE", Entry.other)],
        statFails := [], writeFails := [] } "/d").2 =
    .error (.conflict "/d/LICENSE") := by
  decide


/-! Claim theorems. -/

/-- C1: for every target directory that exists, is a directory, and contains
no filesystem entry named after any destination filename of the template set
(and on which the OS does not fault the two writes), `writeFiles` succeeds
and returns a `Result` whose `files_created` list contains, in template-set
order, the joined destination paths of both entries, each written with that
entry's content bytes. -/
theorem writeFiles_fresh_directory_success
    (c1 c2 : List Nat) (fs : FS) (dir : String)
    (hdirE : findEntry fs.entries dir = some Entry.dir)
    (hdirS : dir ∉ fs.statFails)
    (hlicE : findEntry fs.entries (filepathJoin dir "LICENSE") = none)
    (hconE : findEntry fs.entries (filepathJoin dir "CONTRIBUTING.md") = none)
    (hlicW : filepathJoin dir "LICENSE" ∉ fs.writeFails)
    (hconW : filepathJoin dir "CONTRIBUTING.md" ∉ fs.writeFails) :
    (writeFiles (embeddedFiles c1 c2) fs dir).2 =
      .ok { directory := dir,
            filesCreated :=
              [filepathJoin dir "LICENSE", filepathJoin dir "CONTRIBUTING.md"] } ∧
    findEntry ((writeFiles (embeddedFiles c1 c2) fs dir).1).entries
        (filepathJoin dir "LICENSE") = some (.file c1) ∧
    findEntry ((writeFiles (embeddedFiles c1 c2) fs dir).1).entries
        (filepathJoin dir "CONTRIBUTING.md") = some (.file c2) := by
  have hne : filepathJoin dir "LICENSE" ≠ filepathJoin dir "CONTRIBUTING.md" :=
    filepathJoin_ne_of_ne dir (by decide)
  by_cases hs1 : filepathJoin dir "LICENSE" ∈ fs.statFails <;>
  by_cases hs2 : filepathJoin dir "CONTRIBUTING.md" ∈ fs.statFails <;>
  simp [writeFiles, writeEntries, embeddedFiles, osStat, osWriteFile, findEntry,
    Entry.isDir, hdirE, hdirS, hlicE, hconE, hlicW, hconW, hs1, hs2, hne, hne.symm]

/-- Witness for C1 at a concrete filesystem. -/
theorem writeFiles_fresh_directory_success_witness :
    (writeFiles (embeddedFiles [10] [20])
      { entries := [("/d", Entry.dir)], statFails := [], writeFails := [] } "/d").2 =
      .ok { directory := "/d", filesCreated := ["/d/LICENSE", "/d/CONTRIBUTING.md"] } ∧
    findEntry ((writeFiles (embeddedFiles [10] [20])
      { entries := [("/d", Entry.dir)], statFails := [], writeFails := [] } "/d").1).entries
        "/d/LICENSE" = some (.file [10]) ∧
    findEntry ((writeFiles (embeddedFiles [10] [20])
      { entries := [("/d", Entry.dir)], statFails := [], writeFails := [] } "/d").1).entries
        "/d/CONTRIBUTING.md" = some (.file [20]) :=
  writeFiles_fresh_directory_success [10] [20]
    { entries := [("/d", Entry.dir)], statFails := [], writeFails := [] } "/d"
    (by decide) (by decide) (by decide) (by decide) (by decide) (by decide)


/-- C7: for every target path that does not exist or exists but is not a
directory, `writeFiles` returns a directory error and attempts no write: the
filesystem is unchanged. -/
theorem writeFiles_bad_directory
    (templates : List EmbeddedFile) (fs : FS) (dir : String)
    (hdir : findEntry fs.entries dir = none ∨
      ∃ e, findEntry fs.entries dir = some e ∧ e.isDir = false) :
    (writeFiles templates fs dir).1 = fs ∧
    ∃ err, (writeFiles templates fs dir).2 = .error err ∧
      (err = .dirStatError dir ∨ err = .notADirectory dir) := by
  by_cases hs : dir ∈ fs.statFails
  · simp [writeFiles, osStat, hs]
  · rcases hdir with hnone | ⟨e, he, hnd⟩
    · simp [writeFiles, osStat, hs, hnone]
    · simp [writeFiles, osStat, hs, he, hnd]

/-- Witness for C7: a target path that exists but is a regular file. -/
theorem writeFiles_bad_directory_witness :
    (writeFiles (embeddedFiles [1] [2])
      { entries := [("/f", Entry.file [3])], statFails := [], writeFails := [] } "/f").1 =
      { entries := [("/f", Entry.file [3])], statFails := [], writeFails := [] } ∧
    ∃ err, (writeFiles (embeddedFiles [1] [2])
      { entries := [("/f", Entry.file [3])], statFails := [], writeFails := [] } "/f").2 =
        .error err ∧ (err = .dirStatError "/f" ∨ err = .notADirectory "/f") :=
  writeFiles_bad_directory (embeddedFiles [1] [2])
    { entries := [("/f", Entry.file [3])], statFails := [], writeFails := [] } "/f"
    (Or.inr ⟨Entry.file [3], by decide, by decide⟩)


/-- C2: when the target directory already contains an entry at the destination
path of some template entry and the stat there succeeds, `writeFiles` fails
with a conflict naming the path of the first such entry (index `k`): every
entry before `k` is written and remains with its content, and every path other
than those written is untouched. -/
theorem writeFiles_conflict_midway
    (c1 c2 : List Nat) (fs : FS) (dir : String) (k : Nat)
    (hk : k < 2)
    (hdirE : findEntry fs.entries dir = some Entry.dir)
    (hdirS : dir ∉ fs.statFails)
    (hbefore : ∀ i, i < k →
      findEntry fs.entries ((destPaths dir (embeddedFiles c1 c2)).getD i "") = none ∧
      (destPaths dir (embeddedFiles c1 c2)).getD i "" ∉ fs.statFails ∧
      (destPaths dir (embeddedFiles c1 c2)).getD i "" ∉ fs.writeFails)
    (hconf : ∃ e, findEntry fs.entries
      ((destPaths dir (embeddedFiles c1 c2)).getD k "") = some e)
    (hconfS : (destPaths dir (embeddedFiles c1 c2)).getD k "" ∉ fs.statFails) :
    (writeFiles (embeddedFiles c1 c2) fs dir).2 =
      .error (.conflict ((destPaths dir (embeddedFiles c1 c2)).getD k "")) ∧
    (∀ i, i < k →
      findEntry ((writeFiles (embeddedFiles c1 c2) fs dir).1).entries
        ((destPaths dir (embeddedFiles c1 c2)).getD i "") =
        some (.file (((embeddedFiles c1 c2).getD i ⟨[], ""⟩).content))) ∧
    (∀ p, (∀ i, i < k → p ≠ (destPaths dir (embeddedFiles c1 c2)).getD i "") →
      findEntry ((writeFiles (embeddedFiles c1 c2) fs dir).1).entries p =
        findEntry fs.entries p) := by
  have hne : filepathJoin dir "LICENSE" ≠ filepathJoin dir "CONTRIBUTING.md" :=
    filepathJoin_ne_of_ne dir (by decide)
  interval_cases k <;>
    simp only [destPaths, embeddedFiles, List.map, List.getD_cons_zero,
      List.getD_cons_succ] at hbefore hconf hconfS ⊢
  · obtain ⟨e, he⟩ := hconf
    refine ⟨?_, ?_, ?_⟩
    · simp [writeFiles, writeEntries, embeddedFiles, osStat, Entry.isDir,
        hdirE, hdirS, hconfS, he]
    · intro i hi
      exact absurd hi (by omega)
    · intro p _
      simp [writeFiles, writeEntries, embeddedFiles, osStat, Entry.isDir,
        hdirE, hdirS, hconfS, he]
  · obtain ⟨hE0, hS0, hW0⟩ := hbefore 0 (by omega)
    obtain ⟨e, he⟩ := hconf
    simp only [List.getD_cons_zero] at hE0 hS0 hW0
    refine ⟨?_, ?_, ?_⟩
    · simp [writeFiles, writeEntries, embeddedFiles, osStat, osWriteFile,
        findEntry, Entry.isDir, hdirE, hdirS, hE0, hS0, hW0, hconfS, he,
        hne, Ne.symm hne]
    · intro i hi
      have hi0 : i = 0 := by omega
      subst hi0
      simp [writeFiles, writeEntries, embeddedFiles, osStat, osWriteFile,
        findEntry, Entry.isDir, hdirE, hdirS, hE0, hS0, hW0, hconfS, he,
        hne, Ne.symm hne]
    · intro p hp
      have hp0 : p ≠ filepathJoin dir "LICENSE" := hp 0 (by omega)
      simp [writeFiles, writeEntries, embeddedFiles, osStat, osWriteFile,
        findEntry, Entry.isDir, hdirE, hdirS, hE0, hS0, hW0, hconfS, he,
        hne, Ne.symm hne, hp0]

/-- Witness for C2: the directory already holds `CONTRIBUTING.md` (index 1);
`LICENSE` is written and remains, the call fails with a conflict on
`CONTRIBUTING.md`, and an unrelated path is untouched. -/
theorem writeFiles_conflict_midway_witness :
    (writeFiles (embeddedFiles [1] [2])
      { entries := [("/w", Entry.dir), ("/w/CONTRIBUTING.md", Entry.file [9])],
        statFails := [], writeFails := [] } "/w").2 =
      .error (.conflict ((destPaths "/w" (embeddedFiles [1] [2])).getD 1 "")) ∧
    (∀ i, i < 1 →
      findEntry ((writeFiles (embeddedFiles [1] [2])
        { entries := [("/w", Entry.dir), ("/w/CONTRIBUTING.md", Entry.file [9])],
          statFails := [], writeFails := [] } "/w").1).entries
        ((destPaths "/w" (embeddedFiles [1] [2])).getD i "") =
        some (.file (((embeddedFiles [1] [2]).getD i ⟨[], ""⟩).content))) ∧
    (∀ p, (∀ i, i < 1 → p ≠ (destPaths "/w" (embeddedFiles [1] [2])).getD i "") →
      findEntry ((writeFiles (embeddedFiles [1] [2])
        { entries := [("/w", Entry.dir), ("/w/CONTRIBUTING.md", Entry.file [9])],
          statFails := [], writeFails := [] } "/w").1).entries p =
        findEntry [("/w", Entry.dir), ("/w/CONTRIBUTING.md", Entry.file [9])] p) :=
  writeFiles_conflict_midway [1] [2]
    { entries := [("/w", Entry.dir), ("/w/CONTRIBUTING.md", Entry.file [9])],
      statFails := [], writeFails := [] } "/w" 1
    (by omega) (by decide) (by decide)
    (by intro i hi
        have : i = 0 := by omega
        subst this
        refine ⟨by decide, by decide, by decide⟩)
    ⟨Entry.file [9], by decide⟩ (by decide)


/-- Helper: the per-entry loop never removes an existing entry, whatever the
outcome. -/
theorem writeEntries_preserves_existing (dir p : String) :
    ∀ (templates : List EmbeddedFile) (fs : FS) (created : List String),
    findEntry fs.entries p ≠ none →
    findEntry ((writeEntries dir fs templates created).1).entries p ≠ none := by
  intro templates
  induction templates with
  | nil =>
    intro fs created h
    simpa [writeEntries] using h
  | cons ef rest ih =>
    intro fs created h
    have hcons : ∀ fs' : FS,
        fs'.entries = (filepathJoin dir ef.destName, Entry.file ef.content) :: fs.entries →
        findEntry fs'.entries p ≠ none := by
      intro fs' hfs'
      rw [hfs']
      by_cases hp : p = filepathJoin dir ef.destName
      · simp [findEntry, hp]
      · simpa [findEntry, hp] using h
    rcases hstat : osStat fs (filepathJoin dir ef.destName) with info | _ | _
    · simpa [writeEntries, hstat] using h
    · by_cases hw : filepathJoin dir ef.destName ∈ fs.writeFails
      · simpa [writeEntries, hstat, osWriteFile, hw] using h
      · simp only [writeEntries, hstat, osWriteFile, hw, if_neg]
        exact ih _ _ (hcons _ rfl)
    · by_cases hw : filepathJoin dir ef.destName ∈ fs.writeFails
      · simpa [writeEntries, hstat, osWriteFile, hw] using h
      · simp only [writeEntries, hstat, osWriteFile, hw, if_neg]
        exact ih _ _ (hcons _ rfl)

/-- C3 counterexample: materialization is not all-or-nothing. On a directory
already holding `CONTRIBUTING.md` (but not `LICENSE`), `writeFiles` returns an
error, yet it has created `LICENSE` (absent before the call): the directory's
contents are changed on this failure. -/
theorem writeFiles_error_with_file_created :
    (writeFiles (embeddedFiles [7] [8])
      { entries := [("/p", Entry.dir), ("/p/CONTRIBUTING.md", Entry.file [0])],
        statFails := [], writeFails := [] } "/p").2 =
      .error (.conflict "/p/CONTRIBUTING.md") ∧
    findEntry ((writeFiles (embeddedFiles [7] [8])
      { entries := [("/p", Entry.dir), ("/p/CONTRIBUTING.md", Entry.file [0])],
        statFails := [], writeFails := [] } "/p").1).entries "/p/LICENSE" =
      some (.file [7]) ∧
    findEntry [("/p", Entry.dir), ("/p/CONTRIBUTING.md", Entry.file [0])]
      "/p/LICENSE" = none := by
  decide

/-- C3 amended: `writeFiles` performs no rollback — an entry present in the
filesystem before the call (in particular one written earlier in the same
call) is still present after it, whatever the outcome; an error return does
not mean the directory is unchanged. -/
theorem writeFiles_no_rollback
    (templates : List EmbeddedFile) (fs : FS) (dir p : String)
    (h : findEntry fs.entries p ≠ none) :
    findEntry ((writeFiles templates fs dir).1).entries p ≠ none := by
  rcases hstat : osStat fs dir with info | _ | _
  · by_cases hd : info.isDir
    · have := writeEntries_preserves_existing dir p templates fs [] h
      rcases hw : writeEntries dir fs templates [] with ⟨fs', res⟩
      rw [hw] at this
      rcases res with e | created <;>
        simpa [writeFiles, hstat, hd, hw] using this
    · simpa [writeFiles, hstat, hd] using h
  · simpa [writeFiles, hstat] using h
  · simpa [writeFiles, hstat] using h

/-- Witness for C3's amended theorem: a pre-existing unrelated file survives a
conflicting call. -/
theorem writeFiles_no_rollback_witness :
    findEntry ((writeFiles (embeddedFiles [1] [2])
      { entries := [("/q", Entry.dir), ("/q/keep.txt", Entry.file [5]),
                    ("/q/LICENSE", Entry.file [6])],
        statFails := [], writeFails := [] } "/q").1).entries "/q/keep.txt" ≠ none :=
  writeFiles_no_rollback (embeddedFiles [1] [2])
    { entries := [("/q", Entry.dir), ("/q/keep.txt", Entry.file [5]),
                  ("/q/LICENSE", Entry.file [6])],
      statFails := [], writeFails := [] } "/q" "/q/keep.txt" (by decide)


/-- C8 counterexample: on a directory already containing `CONTRIBUTING.md`
only, the first call fails with a conflict on `CONTRIBUTING.md`; the retry on
the unchanged-by-others directory fails with a conflict naming a different
path (`LICENSE`, which the first call created). -/
theorem writeFiles_retry_names_different_path :
    (writeFiles (embeddedFiles [1] [2])
      { entries := [("/r", Entry.dir), ("/r/CONTRIBUTING.md", Entry.file [0])],
        statFails := [], writeFails := [] } "/r").2 =
      .error (.conflict "/r/CONTRIBUTING.md") ∧
    (writeFiles (embeddedFiles [1] [2])
      ((writeFiles (embeddedFiles [1] [2])
        { entries := [("/r", Entry.dir), ("/r/CONTRIBUTING.md", Entry.file [0])],
          statFails := [], writeFails := [] } "/r").1) "/r").2 =
      .error (.conflict "/r/LICENSE") ∧
    ("/r/LICENSE" : String) ≠ "/r/CONTRIBUTING.md" := by
  decide

/-- C8 amended: if a call on a valid directory fails with a conflict at `p`,
the retry on the resulting state with no external changes never succeeds and
again fails with a conflict, naming either the same path `p` or the `LICENSE`
path an entry was created at by the first call. -/
theorem writeFiles_retry_still_conflicts
    (c1 c2 : List Nat) (fs : FS) (dir : String) (p : String)
    (hdirE : findEntry fs.entries dir = some Entry.dir)
    (hdirS : dir ∉ fs.statFails)
    (hfail : (writeFiles (embeddedFiles c1 c2) fs dir).2 = .error (.conflict p)) :
    ∃ q, (writeFiles (embeddedFiles c1 c2)
        ((writeFiles (embeddedFiles c1 c2) fs dir).1) dir).2 =
          .error (.conflict q) ∧
      (q = p ∨ q = filepathJoin dir "LICENSE") := by
  have hne : filepathJoin dir "LICENSE" ≠ filepathJoin dir "CONTRIBUTING.md" :=
    filepathJoin_ne_of_ne dir (by decide)
  have hne' : filepathJoin dir "CONTRIBUTING.md" ≠ filepathJoin dir "LICENSE" :=
    Ne.symm hne
  have hdl : dir ≠ filepathJoin dir "LICENSE" :=
    Ne.symm (filepathJoin_ne_dir dir "LICENSE")
  by_cases hs1 : filepathJoin dir "LICENSE" ∈ fs.statFails
  · by_cases hw1 : filepathJoin dir "LICENSE" ∈ fs.writeFails
    · simp [writeFiles, writeEntries, embeddedFiles, osStat, osWriteFile,
        Entry.isDir, hdirE, hdirS, hs1, hw1] at hfail
    · by_cases hs2 : filepathJoin dir "CONTRIBUTING.md" ∈ fs.statFails
      · by_cases hw2 : filepathJoin dir "CONTRIBUTING.md" ∈ fs.writeFails <;>
          simp [writeFiles, writeEntries, embeddedFiles, osStat, osWriteFile,
            findEntry, Entry.isDir, hdirE, hdirS, hs1, hw1, hs2, hw2] at hfail
      · rcases he2 : findEntry fs.entries (filepathJoin dir "CONTRIBUTING.md") with _ | e
        · by_cases hw2 : filepathJoin dir "CONTRIBUTING.md" ∈ fs.writeFails <;>
            simp [writeFiles, writeEntries, embeddedFiles, osStat, osWriteFile,
              findEntry, Entry.isDir, hdirE, hdirS, hs1, hw1, hs2, hw2, he2,
              hne'] at hfail
        · have hp : p = filepathJoin dir "CONTRIBUTING.md" := by
            simp [writeFiles, writeEntries, embeddedFiles, osStat, osWriteFile,
              findEntry, Entry.isDir, hdirE, hdirS, hs1, hw1, hs2, he2,
              hne'] at hfail
            exact hfail.symm
          subst hp
          refine ⟨filepathJoin dir "CONTRIBUTING.md", ?_, Or.inl rfl⟩
          simp [writeFiles, writeEntries, embeddedFiles, osStat, osWriteFile,
            findEntry, Entry.isDir, hdirE, hdirS, hs1, hw1, hs2, he2,
            hne', hdl]
  · rcases he1 : findEntry fs.entries (filepathJoin dir "LICENSE") with _ | e1
    · by_cases hw1 : filepathJoin dir "LICENSE" ∈ fs.writeFails
      · simp [writeFiles, writeEntries, embeddedFiles, osStat, osWriteFile,
          Entry.isDir, hdirE, hdirS, hs1, he1, hw1] at hfail
      · by_cases hs2 : filepathJoin dir "CONTRIBUTING.md" ∈ fs.statFails
        · by_cases hw2 : filepathJoin dir "CONTRIBUTING.md" ∈ fs.writeFails <;>
            simp [writeFiles, writeEntries, embeddedFiles, osStat, osWriteFile,
              findEntry, Entry.isDir, hdirE, hdirS, hs1, he1, hw1, hs2,
              hw2] at hfail
        · rcases he2 : findEntry fs.entries (filepathJoin dir "CONTRIBUTING.md") with _ | e2
          · by_cases hw2 : filepathJoin dir "CONTRIBUTING.md" ∈ fs.writeFails <;>
              simp [writeFiles, writeEntries, embeddedFiles, osStat, osWriteFile,
                findEntry, Entry.isDir, hdirE, hdirS, hs1, he1, hw1, hs2, hw2,
                he2, hne'] at hfail
          · have hp : p = filepathJoin dir "CONTRIBUTING.md" := by
              simp [writeFiles, writeEntries, embeddedFiles, osStat, osWriteFile,
                findEntry, Entry.isDir, hdirE, hdirS, hs1, he1, hw1, hs2, he2,
                hne'] at hfail
              exact hfail.symm
            subst hp
            refine ⟨filepathJoin dir "LICENSE", ?_, Or.inr rfl⟩
            simp [writeFiles, writeEntries, embeddedFiles, osStat, osWriteFile,
              findEntry, Entry.isDir, hdirE, hdirS, hs1, he1, hw1, hs2, he2,
              hne', hdl]
    · have hp : p = filepathJoin dir "LICENSE" := by
        simp [writeFiles, writeEntries, embeddedFiles, osStat, osWriteFile,
          Entry.isDir, hdirE, hdirS, hs1, he1] at hfail
        exact hfail.symm
      subst hp
      refine ⟨filepathJoin dir "LICENSE", ?_, Or.inl rfl⟩
      simp [writeFiles, writeEntries, embeddedFiles, osStat, osWriteFile,
        Entry.isDir, hdirE, hdirS, hs1, he1]

/-- Witness for C8's amended theorem at a concrete populated directory. -/
theorem writeFiles_retry_still_conflicts_witness :
    ∃ q, (writeFiles (embeddedFiles [1] [2])
        ((writeFiles (embeddedFiles [1] [2])
          { entries := [("/s", Entry.dir), ("/s/LICENSE", Entry.file [4])],
            statFails := [], writeFails := [] } "/s").1) "/s").2 =
          .error (.conflict q) ∧
      (q = "/s/LICENSE" ∨ q = filepathJoin "/s" "LICENSE") :=
  writeFiles_retry_still_conflicts [1] [2]
    { entries := [("/s", Entry.dir), ("/s/LICENSE", Entry.file [4])],
      statFails := [], writeFails := [] } "/s" "/s/LICENSE"
    (by decide) (by decide) (by decide)


/-- C10: in the per-entry loop, the conflict branch is taken exactly when the
stat of the destination path succeeds; on any stat error the loop falls
through to the write attempt, and when that write does not fault it stores the
entry's content at the destination path — even over a pre-existing entry the
stat could not see. -/
theorem writeEntries_conflict_iff_stat_ok
    (dir : String) (ef : EmbeddedFile) (rest : List EmbeddedFile)
    (fs : FS) (created : List String) :
    ((osStat fs (filepathJoin dir ef.destName)).isOk = true →
      writeEntries dir fs (ef :: rest) created =
        (fs, .error (.conflict (filepathJoin dir ef.destName)))) ∧
    ((osStat fs (filepathJoin dir ef.destName)).isOk = false →
      writeEntries dir fs (ef :: rest) created =
        match osWriteFile fs (filepathJoin dir ef.destName) ef.content with
        | none => (fs, .error (.writeError ef.destName))
        | some fs' =>
          writeEntries dir fs' rest (created ++ [filepathJoin dir ef.destName])) ∧
    ((osStat fs (filepathJoin dir ef.destName)).isOk = false →
      filepathJoin dir ef.destName ∉ fs.writeFails →
      ∃ fs', osWriteFile fs (filepathJoin dir ef.destName) ef.content = some fs' ∧
        findEntry fs'.entries (filepathJoin dir ef.destName) =
          some (.file ef.content) ∧
        writeEntries dir fs (ef :: rest) created =
          writeEntries dir fs' rest (created ++ [filepathJoin dir ef.destName])) := by
  rcases hstat : osStat fs (filepathJoin dir ef.destName) with info | _ | _
  · refine ⟨fun _ => by simp [writeEntries, hstat], fun h => ?_, fun h _ => ?_⟩ <;>
      simp [StatResult.isOk] at h
  · refine ⟨fun h => by simp [StatResult.isOk] at h, fun _ => ?_, fun _ hw => ?_⟩
    · simp [writeEntries, hstat]
    · exact ⟨{ fs with entries :=
          (filepathJoin dir ef.destName, Entry.file ef.content) :: fs.entries },
        by simp [osWriteFile, hw], by simp [findEntry],
        by simp [writeEntries, hstat, osWriteFile, hw]⟩
  · refine ⟨fun h => by simp [StatResult.isOk] at h, fun _ => ?_, fun _ hw => ?_⟩
    · simp [writeEntries, hstat]
    · exact ⟨{ fs with entries :=
          (filepathJoin dir ef.destName, Entry.file ef.content) :: fs.entries },
        by simp [osWriteFile, hw], by simp [findEntry],
        by simp [writeEntries, hstat, osWriteFile, hw]⟩

/-- Witness for C10: an entry exists at the `LICENSE` destination but its stat
faults (e.g. a dangling symlink); the loop falls through and the write lands,
overwriting it. -/
theorem writeEntries_conflict_iff_stat_ok_witness :
    ∃ fs', osWriteFile
        { entries := [("/t", Entry.dir), ("/t/LICENSE", Entry.other)],
          statFails := ["/t/LICENSE"], writeFails := [] }
        (filepathJoin "/t" "LICENSE") [1] = some fs' ∧
      findEntry fs'.entries (filepathJoin "/t" "LICENSE") =
        some (.file [1]) ∧
      writeEntries "/t"
        { entries := [("/t", Entry.dir), ("/t/LICENSE", Entry.other)],
          statFails := ["/t/LICENSE"], writeFails := [] }
        ({ content := [1], destName := "LICENSE" } ::
          [{ content := [2], destName := "CONTRIBUTING.md" }]) [] =
        writeEntries "/t" fs' [{ content := [2], destName := "CONTRIBUTING.md" }]
          ([] ++ [filepathJoin "/t" "LICENSE"]) :=
  (writeEntries_conflict_iff_stat_ok "/t" { content := [1], destName := "LICENSE" }
    [{ content := [2], destName := "CONTRIBUTING.md" }]
    { entries := [("/t", Entry.dir), ("/t/LICENSE", Entry.other)],
      statFails := ["/t/LICENSE"], writeFails := [] } []).2.2
    (by decide) (by decide)

/-- C4: every response produced by request dispatch carries the id of the
request that produced it, unchanged — null stays null, a number stays that
number, a string stays that string — in success and error responses alike. -/
theorem handleRequest_preserves_id
    (templates : List EmbeddedFile) (fs : FS) (req : JSONRPCRequest) :
    ((handleRequest templates fs req).2).id = req.id := by
  unfold handleRequest handleToolsCall
  repeat' split
  all_goals rfl

/-- Helper: the transport loop is unchanged by dropping empty lines. -/
theorem processLines_filter_nonempty (templates : List EmbeddedFile) :
    ∀ (lines : List Line) (fs : FS),
    processLines templates fs lines =
      processLines templates fs (lines.filter (fun l => !l.isEmpty)) := by
  intro lines
  induction lines with
  | nil => intro fs; rfl
  | cons l rest ih =>
    intro fs
    cases l with
    | empty => simpa [processLines, dispatchLine, Line.isEmpty] using ih fs
    | malformed => simp [processLines, dispatchLine, Line.isEmpty, ih fs]
    | parsed req =>
      rcases hh : handleRequest templates fs req with ⟨fs1, resp⟩
      simp [processLines, dispatchLine, Line.isEmpty, hh, ih fs1]

/-- Helper: on an input of non-empty lines, the loop emits exactly one
response per line. -/
theorem processLines_length_nonempty (templates : List EmbeddedFile) :
    ∀ (ls : List Line) (fs : FS), (∀ l ∈ ls, l.isEmpty = false) →
    (processLines templates fs ls).2.length = ls.length := by
  intro ls
  induction ls with
  | nil => intro fs _; rfl
  | cons l rest ih =>
    intro fs hne
    cases l with
    | empty => simpa [Line.isEmpty] using hne .empty (by simp)
    | malformed =>
      rcases h : processLines templates fs rest with ⟨fs1, rs⟩
      have := ih fs (fun l hl => hne l (by simp [hl]))
      rw [h] at this
      simp [processLines, dispatchLine, h, this]
    | parsed req =>
      rcases hh : handleRequest templates fs req with ⟨fs1, resp⟩
      rcases h : processLines templates fs1 rest with ⟨fs2, rs⟩
      have := ih fs1 (fun l hl => hne l (by simp [hl]))
      rw [h] at this
      simp [processLines, dispatchLine, hh, h, this]

/-- C5: over any finite input, the transport loop emits exactly one response
per non-empty line, none for empty lines, and in the order of the lines that
produced them: the whole run equals the run on the empty-line-free input, and
the response count equals the non-empty-line count. -/
theorem processLines_one_response_per_nonempty_line
    (templates : List EmbeddedFile) (fs : FS) (lines : List Line) :
    processLines templates fs lines =
      processLines templates fs (lines.filter (fun l => !l.isEmpty)) ∧
    (processLines templates fs lines).2.length =
      (lines.filter (fun l => !l.isEmpty)).length := by
  refine ⟨processLines_filter_nonempty templates lines fs, ?_⟩
  rw [processLines_filter_nonempty templates lines fs]
  refine processLines_length_nonempty templates _ fs ?_
  intro l hl
  rcases List.mem_filter.mp hl with ⟨_, hne⟩
  simpa using hne

/-- C6: a line that fails to parse yields an error response with a null id and
code -32700, and processing continues: the rest of the input is processed
exactly as it would be on its own, so a subsequent valid line is still
answered. -/
theorem processLines_parse_error_continues
    (templates : List EmbeddedFile) (fs : FS) (rest : List Line) :
    processLines templates fs (Line.malformed :: rest) =
      ((processLines templates fs rest).1,
        sendError JSONValue.null (-32700) "Parse error" ::
          (processLines templates fs rest).2) ∧
    (sendError JSONValue.null (-32700) "Parse error").id = JSONValue.null ∧
    (sendError JSONValue.null (-32700) "Parse error").error =
      some { code := -32700, message := "Parse error" } := by
  refine ⟨?_, rfl, rfl⟩
  rcases h : processLines templates fs rest with ⟨fs1, rs⟩
  simp [processLines, dispatchLine, h]

/-- Helper: every dispatched response populates exactly one of result and
error. -/
theorem handleRequest_result_xor_error
    (templates : List EmbeddedFile) (fs : FS) (req : JSONRPCRequest) :
    ((∃ pl, ((handleRequest templates fs req).2).result = some pl) ∧
      ((handleRequest templates fs req).2).error = none) ∨
    ((∃ e, ((handleRequest templates fs req).2).error = some e) ∧
      ((handleRequest templates fs req).2).result = none) := by
  unfold handleRequest handleToolsCall
  repeat' split
  all_goals simp [handleInitialize, handleToolsList, sendResponse, sendError]

/-- C9: every response the transport loop emits populates exactly one of the
result field and the error field — never both, never neither. -/
theorem emitted_responses_result_xor_error
    (templates : List EmbeddedFile) (fs : FS) (lines : List Line)
    (r : JSONRPCResponse) (hr : r ∈ (processLines templates fs lines).2) :
    ((∃ pl, r.result = some pl) ∧ r.error = none) ∨
    ((∃ e, r.error = some e) ∧ r.result = none) := by
  induction lines generalizing fs with
  | nil => simp [processLines] at hr
  | cons l rest ih =>
    cases l with
    | empty =>
      simp only [processLines, dispatchLine] at hr
      exact ih _ hr
    | malformed =>
      rcases h : processLines templates fs rest with ⟨fs1, rs⟩
      rw [processLines, dispatchLine] at hr
      simp [h] at hr
      rcases hr with hr | hr
      · subst hr
        exact Or.inr ⟨⟨_, rfl⟩, rfl⟩
      · exact ih fs (by simp [h, hr])
    | parsed req =>
      rcases hh : handleRequest templates fs req with ⟨fs1, resp⟩
      rcases h : processLines templates fs1 rest with ⟨fs2, rs⟩
      rw [processLines, dispatchLine] at hr
      simp [hh, h] at hr
      rcases hr with hr | hr
      · subst hr
        have := handleRequest_result_xor_error templates fs req
        rw [hh] at this
        exact this
      · exact ih fs1 (by simp [h, hr])

/-- Witness for C9 at a concrete emitted response. -/
theorem emitted_responses_result_xor_error_witness :
    ((∃ pl, (sendError JSONValue.null (-32700) "Parse error").result = some pl) ∧
      (sendError JSONValue.null (-32700) "Parse error").error = none) ∨
    ((∃ e, (sendError JSONValue.null (-32700) "Parse error").error = some e) ∧
      (sendError JSONValue.null (-32700) "Parse error").result = none) :=
  emitted_responses_result_xor_error (embeddedFiles [1] [2])
    { entries := [], statFails := [], writeFails := [] } [Line.malformed]
    (sendError JSONValue.null (-32700) "Parse error")
    (by simp [processLines, dispatchLine])

end InitTool
